import Mathlib

/-!
Verification of the `HomepageFeatures` component
(`src/components/HomepageFeatures/index.js`).

The component is embedded shallowly:

* a React/DOM tree is the inductive type `Node` (elements with a tag,
  attribute list and children; text nodes; and `keyed`, recording the
  React `key` attached to an element produced inside a `map`);
* an imported SVG component (`require('...').default`) is identified by
  its asset path and renders as an `svg` element carrying that path;
* a JSX fragment of prose is its text content;
* props destructured by `Feature` are the fields of `FeatureProps`;
  `extra` holds any further props a record might carry (the source
  spreads `{...props}`, so all fields reach `Feature`, which consumes
  only `Svg`, `title` and `description`);
* a render that throws (React's "element type is invalid" when the
  `Svg` component is `undefined`) is an `Except.error`.
-/

/-- A rendered React/DOM tree. -/
inductive Node where
  | text (s : String)
  | element (tag : String) (attrs : List (String × String)) (children : List Node)
  | keyed (key : Nat) (child : Node)

mutual

def Node.beq : Node → Node → Bool
  | .text a, .text b => a == b
  | .element t1 a1 c1, .element t2 a2 c2 => t1 == t2 && a1 == a2 && Node.beqList c1 c2
  | .keyed k1 n1, .keyed k2 n2 => k1 == k2 && Node.beq n1 n2
  | _, _ => false

def Node.beqList : List Node → List Node → Bool
  | [], [] => true
  | x :: xs, y :: ys => Node.beq x y && Node.beqList xs ys
  | _, _ => false

end

instance : BEq Node := ⟨Node.beq⟩

mutual

/-- `Node.contains t n` holds when `t` occurs as a subtree of `n`
(including `n` itself). -/
def Node.contains (target : Node) : Node → Bool
  | .text s => Node.beq (.text s) target
  | .element t a cs =>
      Node.beq (.element t a cs) target || Node.containsList target cs
  | .keyed k c => Node.beq (.keyed k c) target || Node.contains target c

def Node.containsList (target : Node) : List Node → Bool
  | [] => false
  | c :: cs => Node.contains target c || Node.containsList target cs

end

/-- The props record a feature descriptor supplies.  `title`, `Svg` and
`description` are the fields `Feature` destructures; `extra` models any
additional props spread through `{...props}`.  An absent (undefined)
prop is `none`. -/
structure FeatureProps where
  title : Option String
  Svg : Option String
  description : Option String
  extra : List (String × String)

/-- First record of `FeatureList` (lines 6-15 of index.js). -/
def r0 : FeatureProps :=
  { title := some "Organized Study Notes"
    Svg := some "undraw_docusaurus_mountain.svg"
    description := some "Keep all your study notes structured and easily accessible in one centralized place."
    extra := [] }

/-- Second record of `FeatureList` (lines 16-25 of index.js). -/
def r1 : FeatureProps :=
  { title := some "Copyable Code & Diagrams"
    Svg := some "undraw_docusaurus_tree.svg"
    description := some "Include code snippets, diagrams, and links that you can copy or reference instantly while studying."
    extra := [] }

/-- Third record of `FeatureList` (lines 26-35 of index.js). -/
def r2 : FeatureProps :=
  { title := some "Markdown Powered"
    Svg := some "undraw_docusaurus_react.svg"
    description := some "Write your notes in Markdown, with full support for headings, lists, images, and links — powered by React for seamless integration."
    extra := [] }

/-- The hard-coded `FeatureList` array (lines 5-36 of index.js). -/
def FeatureList : List FeatureProps := [r0, r1, r2]

/-- The success branch of `Feature`: the card markup built from the
`Svg` component, the `title` and the `description`
(lines 39-49 of index.js).  `clsx('col col--4')` evaluates to the plain
class string; `styles.featureSvg` is the CSS-module class name;
`Heading as="h3"` renders an `h3`; an undefined `title`/`description`
interpolates to nothing. -/
def featureBody (svg : String) (title descr : Option String) : Node :=
  .element "div" [("className", "col col--4")] [
    .element "div" [("className", "text--center")] [
      .element "svg" [("src", svg), ("className", "featureSvg"), ("role", "img")] []],
    .element "div" [("className", "text--center padding-horiz--md")] [
      .element "h3" [] [.text (title.getD "")],
      .element "p" [] [.text (descr.getD "")]]]

/-- The `Feature` component (lines 38-50 of index.js).  Rendering
`<Svg ... />` with an undefined `Svg` makes React throw ("element type
is invalid"); otherwise the card markup is produced. -/
def Feature (p : FeatureProps) : Except String Node :=
  match p.Svg with
  | none => .error "Element type is invalid"
  | some svg => .ok (featureBody svg p.title p.description)

/-- `list.map((props, idx) => <Feature key={idx} {...props} />)`
(lines 57-59 of index.js), with `idx` the running index supplied by
`Array.prototype.map`.  A throw inside the map propagates. -/
def renderCards : List FeatureProps → Nat → Except String (List Node)
  | [], _ => .ok []
  | p :: rest, idx =>
    match Feature p with
    | .error e => .error e
    | .ok n =>
      match renderCards rest (idx + 1) with
      | .error e => .error e
      | .ok ns => .ok (Node.keyed idx n :: ns)

/-- The body of `HomepageFeatures` (lines 53-63 of index.js) as a
function of the feature list it maps over: the cards wrapped in
`section.features > div.container > div.row`. -/
def renderHomepage (l : List FeatureProps) : Except String Node :=
  match renderCards l 0 with
  | .error e => .error e
  | .ok cards =>
    .ok (.element "section" [("className", "features")] [
      .element "div" [("className", "container")] [
        .element "div" [("className", "row")] cards]])

/-- The exported `HomepageFeatures` component applied to the
module-level `FeatureList` it closes over (lines 52-64 of index.js). -/
def HomepageFeatures : Except String Node := renderHomepage FeatureList

/-- Extracts the children of the `row` div from the `section` produced
by `renderHomepage`. -/
def rowOf : Node → Option (List Node)
  | .element "section" _ [.element "div" _ [.element "div" _ cards]] => some cards
  | _ => none

/-- The list of card elements in the rendered homepage section. -/
def homepageRow : Option (List Node) :=
  match HomepageFeatures with
  | .ok n => rowOf n
  | .error _ => none

/-- The cards of the rendered homepage. -/
def homepageCards : List Node := homepageRow.getD []

/-- The React key of a rendered card. -/
def keyOf : Node → Nat
  | .keyed k _ => k
  | _ => 0

/-- The module-level state a render of `HomepageFeatures` can see: the
`FeatureList` array it closes over, together with arbitrary ambient
state `σ` of the host (the component reads no hooks, no context and no
globals, and assigns nothing). -/
structure ModuleState (σ : Type) where
  featureList : List FeatureProps
  ambient : σ

/-- One call of the exported `HomepageFeatures` component against the
module state: it reads `featureList`, builds the section, and performs
no writes (the source contains no assignment), so the post-state is the
pre-state. -/
def HomepageFeaturesRun {σ : Type} (s : ModuleState σ) :
    Except String Node × ModuleState σ :=
  (renderHomepage s.featureList, s)

/-- The `svg` element a card renders for a record's `Svg` component
(with the CSS-module class and `role="img"`). -/
def svgNodeOf (p : FeatureProps) : Node :=
  .element "svg" [("src", p.Svg.getD ""), ("className", "featureSvg"), ("role", "img")] []

/-- The `h3` heading a card renders for a record's `title`. -/
def titleNodeOf (p : FeatureProps) : Node :=
  .element "h3" [] [.text (p.title.getD "")]

/-- The paragraph a card renders for a record's `description`. -/
def descNodeOf (p : FeatureProps) : Node :=
  .element "p" [] [.text (p.description.getD "")]

/-- A rendered card is a keyed element whose body holds the record's
icon (an `svg` with `role="img"`), its title as an `h3`, and its
description in a `p`. -/
def cardPresents (p : FeatureProps) (c : Node) : Bool :=
  match c with
  | .keyed _ body =>
      Node.contains (svgNodeOf p) body
        && Node.contains (titleNodeOf p) body
        && Node.contains (descNodeOf p) body
  | _ => false

theorem renderCards_ok_length :
    ∀ (l : List FeatureProps) (idx : Nat) (cards : List Node),
      renderCards l idx = .ok cards → cards.length = l.length := by
  intro l
  induction l with
  | nil =>
    intro idx cards h
    simp only [renderCards] at h
    cases h
    rfl
  | cons p rest ih =>
    intro idx cards h
    simp only [renderCards] at h
    cases hF : Feature p with
    | error e => rw [hF] at h; cases h
    | ok n =>
      rw [hF] at h
      cases hR : renderCards rest (idx + 1) with
      | error e => rw [hR] at h; cases h
      | ok ns =>
        rw [hR] at h
        cases h
        simp [List.length_cons, ih (idx + 1) ns hR]

theorem renderCards_ok_keys :
    ∀ (l : List FeatureProps) (idx : Nat) (cards : List Node),
      renderCards l idx = .ok cards →
        cards.map keyOf = List.range' idx l.length := by
  intro l
  induction l with
  | nil =>
    intro idx cards h
    simp only [renderCards] at h
    cases h
    rfl
  | cons p rest ih =>
    intro idx cards h
    simp only [renderCards] at h
    cases hF : Feature p with
    | error e => rw [hF] at h; cases h
    | ok n =>
      rw [hF] at h
      cases hR : renderCards rest (idx + 1) with
      | error e => rw [hR] at h; cases h
      | ok ns =>
        rw [hR] at h
        cases h
        simp only [List.map_cons, List.length_cons]
        rw [ih (idx + 1) ns hR]
        rfl

/-- Claim C1: `HomepageFeatures` maps the static array `FeatureList` to
rendered cards: the row of the rendered section holds exactly one card
per element of `FeatureList`, in array order, each receiving that
element's `title`, `Svg` and `description` as its props. -/
theorem claim1_cards_match_list :
    homepageRow = some (FeatureList.enum.map fun ip =>
      Node.keyed ip.1 (featureBody (ip.2.Svg.getD "") ip.2.title ip.2.description)) := rfl

/-- Claim C2: every record of the hard-coded three-element `FeatureList`
has its `title`, `Svg` and `description` present and defined. -/
theorem claim2_records_complete :
    FeatureList.length = 3 ∧
      FeatureList.all
        (fun r => r.title.isSome && r.Svg.isSome && r.description.isSome) = true :=
  ⟨rfl, rfl⟩

/-- Claim C3: rendering `HomepageFeatures` never fails: every shipped
record supplies the props `Feature` consumes, so no `Feature`
application reaches the error branch and the whole render succeeds. -/
theorem claim3_render_never_fails :
    FeatureList.all (fun r => (Feature r).isOk) = true ∧
      HomepageFeatures.isOk = true :=
  ⟨rfl, rfl⟩

/-- Claim C4: `FeatureList` has exactly three records, so the rendered
homepage section holds exactly three feature cards. -/
theorem claim4_three_cards :
    FeatureList.length = 3 ∧ homepageRow = some homepageCards ∧
      homepageCards.length = 3 :=
  ⟨rfl, rfl, rfl⟩

/-- Claim C5: `HomepageFeatures` is pure and stateless: two renders
against module states agreeing on `FeatureList` (ambient host state may
differ arbitrarily, and may even have different type) produce identical
output. -/
theorem claim5_pure_deterministic {σ τ : Type}
    (s1 : ModuleState σ) (s2 : ModuleState τ)
    (h : s1.featureList = s2.featureList) :
    (HomepageFeaturesRun s1).1 = (HomepageFeaturesRun s2).1 := by
  simp [HomepageFeaturesRun, h]

theorem claim5_witness :
    (HomepageFeaturesRun ⟨FeatureList, (0 : Nat)⟩).1
      = (HomepageFeaturesRun ⟨FeatureList, true⟩).1 :=
  claim5_pure_deterministic _ _ rfl

/-- Claim C6: the map renders one card per record: whenever the map over
an input list succeeds, the number of cards equals the length of the
list. -/
theorem claim6_card_count (l : List FeatureProps) (cards : List Node)
    (h : renderCards l 0 = .ok cards) : cards.length = l.length :=
  renderCards_ok_length l 0 cards h

theorem claim6_witness : homepageCards.length = FeatureList.length :=
  claim6_card_count FeatureList homepageCards rfl

/-- Claim C7: each rendered card is a presentational unit holding the
record's icon (an `svg` element with `role="img"`), its title as an
`h3` heading, and its description in a paragraph, placed (in order) in
the row of the homepage section. -/
theorem claim7_card_anatomy :
    homepageRow.isSome = true ∧
      homepageCards.length = FeatureList.length ∧
      (FeatureList.zip homepageCards).all (fun x => cardPresents x.1 x.2) = true :=
  ⟨rfl, rfl, rfl⟩

/-- Claim C8: a render of `HomepageFeatures` leaves the module state,
and in particular `FeatureList` and every record in it, unchanged: the
post-state equals the pre-state. -/
theorem claim8_frame {σ : Type} (s : ModuleState σ) :
    (HomepageFeaturesRun s).2 = s ∧
      (HomepageFeaturesRun s).2.featureList = s.featureList :=
  ⟨rfl, rfl⟩

/-- Claim C9: the React keys of the rendered cards are exactly the list
indices `0 .. N-1`, hence pairwise distinct, for every input list the
map succeeds on. -/
theorem claim9_keys_are_indices (l : List FeatureProps) (cards : List Node)
    (h : renderCards l 0 = .ok cards) :
    cards.map keyOf = List.range l.length ∧ (cards.map keyOf).Nodup := by
  have hk := renderCards_ok_keys l 0 cards h
  refine ⟨?_, ?_⟩
  · rw [hk]
    exact (List.range_eq_range' l.length).symm
  · rw [hk, ← List.range_eq_range']
    exact List.nodup_range _

theorem claim9_witness :
    homepageCards.map keyOf = List.range FeatureList.length ∧
      (homepageCards.map keyOf).Nodup :=
  claim9_keys_are_indices FeatureList homepageCards rfl

/-- Claim C10: a card's output depends only on the `Svg`, `title` and
`description` props of its record: records agreeing on those three
fields render identically, whatever their other fields. -/
theorem claim10_noninterference (p q : FeatureProps)
    (hs : p.Svg = q.Svg) (ht : p.title = q.title)
    (hd : p.description = q.description) : Feature p = Feature q := by
  unfold Feature
  rw [hs, ht, hd]

/-- A record carrying an extra prop not consumed by `Feature`. -/
def pWithExtra : FeatureProps :=
  { title := some "T", Svg := some "icon.svg", description := some "D",
    extra := [("data-x", "1")] }

/-- The same record without the extra prop. -/
def qNoExtra : FeatureProps :=
  { title := some "T", Svg := some "icon.svg", description := some "D",
    extra := [] }

theorem claim10_witness : Feature pWithExtra = Feature qNoExtra :=
  claim10_noninterference pWithExtra qNoExtra rfl rfl rfl
